import Mathlib

/-!
Verification of the document-management backend (FastAPI + Supabase).

The Supabase tables are modelled as in-memory lists inside a `DB` state; each
route handler from `app/api/routes/documents.py` and `app/api/routes/auth.py`
is embedded as a pure function from the database state (plus the authenticated
user id that FastAPI's `Depends(get_current_user)` supplies) to an
`Except HTTPError` response paired with the resulting database state.
`supabase.table(t).select("*").eq(col, v).execute()` returns the rows matching
the filter, in table order; `.update(data).eq(col, v)` applies `data` to every
matching row and returns the updated rows; `.delete().eq(col, v)` removes the
matching rows; `.insert(row)` appends the row and returns it.
-/

namespace MunBackend

/-- HTTP error as raised by FastAPI's `HTTPException`: a status code and a
human-readable detail string. -/
structure HTTPError where
  status_code : Nat
  detail : String
deriving Repr, DecidableEq

/-- Row of the `documents` table, with the columns used by the routes and
declared by `DocumentResponse` in `app/schemas/document.py`. `content` and
`format_status` are nullable there, the rest are required strings. -/
structure Document where
  id : String
  user_id : String
  title : String
  type : String
  committee : String
  country : String
  topic : String
  content : Option String
  format_status : Option String
deriving Repr, DecidableEq

/-- Row of the `users` table as written by the signup route: email, username,
hashed password, plus the id and creation timestamp assigned by the database. -/
structure UserRow where
  id : String
  email : String
  username : String
  password : String
  created_at : String
deriving Repr, DecidableEq

/-- The external database state: the two Supabase tables the routes touch. -/
structure DB where
  users : List UserRow
  documents : List Document
deriving Repr, DecidableEq

/-- Body of `PUT /documents/{id}` (`DocumentUpdate` in
`app/schemas/document.py`): every field optional, defaulting to `None`. -/
structure DocumentUpdate where
  title : Option String
  type : Option String
  committee : Option String
  country : Option String
  topic : Option String
  content : Option String
  format_status : Option String
deriving Repr, DecidableEq

/-- Response model of `POST /documents/{document_id}/format-check`
(`FormatCheckResponse` in `app/schemas/document.py`). -/
structure FormatCheckResponse where
  document_id : String
  format_status : String
  issues : Option (List String)
deriving Repr, DecidableEq

/-- Python truthiness of an optional query-string filter: `if type:` is false
both when the parameter is absent (`None`) and when it is the empty string. -/
def truthy : Option String → Bool
  | none => false
  | some s => !(s == "")

/-- Handler of `GET /documents/`: builds a `select("*")` query over the whole
`documents` table and chains an `.eq` filter for each truthy query parameter.
The authenticated user is resolved by the dependency but never used: no
`user_id` filter is applied. -/
def get_documents (db : DB) (_current_user : String)
    (type? committee? country? : Option String) : List Document :=
  let q0 := db.documents
  let q1 := if truthy type? then q0.filter (fun d => d.type == type?.getD "") else q0
  let q2 := if truthy committee? then q1.filter (fun d => d.committee == committee?.getD "") else q1
  let q3 := if truthy country? then q2.filter (fun d => d.country == country?.getD "") else q2
  q3

/-- Handler of `GET /documents/{document_id}`: selects the rows with the given
id; 404 when none, otherwise the first row. No ownership check is made. -/
def get_document (db : DB) (_current_user : String) (document_id : String) :
    Except HTTPError Document :=
  match db.documents.filter (fun d => d.id == document_id) with
  | [] => Except.error ⟨404, "Document not found"⟩
  | d :: _ => Except.ok d

/-- The dict comprehension `{k: v for k, v in document_update.dict().items()
if v is not None}` followed by `.update(update_data)`: each non-`None` field
of the request body overwrites the stored column, every `None` field is
dropped from the update and the stored column keeps its value. -/
def applyUpdate (u : DocumentUpdate) (d : Document) : Document :=
  { d with
    title := u.title.getD d.title
    type := u.type.getD d.type
    committee := u.committee.getD d.committee
    country := u.country.getD d.country
    topic := u.topic.getD d.topic
    content := match u.content with | some v => some v | none => d.content
    format_status := match u.format_status with | some v => some v | none => d.format_status }

/-- Handler of `PUT /documents/{document_id}`: fetch rows with the id (404 when
none); compare the first row's `user_id` with the authenticated user (403 on
mismatch, state unchanged); otherwise apply the non-`None` fields to every row
with that id and return the first updated row (500 if the update returned no
rows). -/
def update_document (db : DB) (current_user : String) (document_id : String)
    (document_update : DocumentUpdate) : Except HTTPError Document × DB :=
  match db.documents.filter (fun d => d.id == document_id) with
  | [] => (Except.error ⟨404, "Document not found"⟩, db)
  | d :: _ =>
    if d.user_id ≠ current_user then
      (Except.error ⟨403, "Not authorized to update this document"⟩, db)
    else
      let newDocs := db.documents.map
        (fun x => if x.id == document_id then applyUpdate document_update x else x)
      let db' : DB := { db with documents := newDocs }
      match newDocs.filter (fun x => x.id == document_id) with
      | [] => (Except.error ⟨500, "Failed to update document"⟩, db')
      | r :: _ => (Except.ok r, db')

/-- Handler of `DELETE /documents/{document_id}`: fetch rows with the id (404
when none); compare the first row's `user_id` with the authenticated user (403
on mismatch, state unchanged); otherwise delete every row with that id and
return 204 (`None`). -/
def delete_document (db : DB) (current_user : String) (document_id : String) :
    Except HTTPError Unit × DB :=
  match db.documents.filter (fun d => d.id == document_id) with
  | [] => (Except.error ⟨404, "Document not found"⟩, db)
  | d :: _ =>
    if d.user_id ≠ current_user then
      (Except.error ⟨403, "Not authorized to delete this document"⟩, db)
    else
      (Except.ok (), { db with documents := db.documents.filter (fun x => !(x.id == document_id)) })

/-- The fixed issue list the mock format checker reports when it flags a
document. -/
def formatIssues : List String :=
  ["Incorrect heading format", "Missing country flag in header", "Citation style inconsistent"]

/-- Handler of `POST /documents/{document_id}/format-check`: fetch rows with
the id (404 when none); then, with `is_valid` standing for the
`random.choice([True, False])` coin flip, set `format_status` to `"valid"` or
`"issues"` on every row with that id and answer with the id, the status and
(only in the `"issues"` case) the fixed issue list. No ownership check is made
before writing. -/
def check_document_format (db : DB) (_current_user : String) (document_id : String)
    (is_valid : Bool) : Except HTTPError FormatCheckResponse × DB :=
  match db.documents.filter (fun d => d.id == document_id) with
  | [] => (Except.error ⟨404, "Document not found"⟩, db)
  | _ :: _ =>
    let format_status := if is_valid then "valid" else "issues"
    let issues : Option (List String) := if is_valid then none else some formatIssues
    let newDocs := db.documents.map
      (fun x => if x.id == document_id then { x with format_status := some format_status } else x)
    (Except.ok ⟨document_id, format_status, issues⟩, { db with documents := newDocs })

/-- Body of `POST /auth/signup` (`UserCreate` in `app/schemas/user.py`, whose
source is not provided; the fields are the ones the route reads). -/
structure UserCreate where
  email : String
  username : String
  password : String
deriving Repr, DecidableEq

/-- Response model of `POST /auth/signup`: the route returns exactly the four
keys id, email, username and created_at of the inserted row. -/
structure UserResponse where
  id : String
  email : String
  username : String
  created_at : String
deriving Repr, DecidableEq

/-- Response model of the login endpoints (`Token` in `app/schemas/user.py`):
an access token string and the literal token type `"bearer"`. -/
structure Token where
  access_token : String
  token_type : String
deriving Repr, DecidableEq

/-- Body of `POST /auth/login` (`UserLogin`): email and password. -/
structure UserLogin where
  email : String
  password : String
deriving Repr, DecidableEq

/-- Supabase `insert` on the `users` table: appends the row and returns the
inserted rows as `result.data`. -/
def insertUser (db : DB) (row : UserRow) : List UserRow × DB :=
  ([row], { db with users := db.users ++ [row] })

/-- Handler of `POST /auth/signup`: reject with 400 when a row with the same
email already exists; otherwise hash the password with `get_password_hash`
(abstracted as `hashFn`, since `app/api/auth.py` is not among the sources),
insert the row, and return only id, email, username and created_at of the
inserted row. `freshId` and `createdAt` stand for the id and timestamp the
database assigns to the inserted row. -/
def create_user (hashFn : String → String) (db : DB) (user : UserCreate)
    (freshId createdAt : String) : Except HTTPError UserResponse × DB :=
  match db.users.filter (fun u => u.email == user.email) with
  | _ :: _ => (Except.error ⟨400, "Email already registered"⟩, db)
  | [] =>
    let hashed_password := hashFn user.password
    let new_user : UserRow :=
      { id := freshId, email := user.email, username := user.username
        password := hashed_password, created_at := createdAt }
    let (data, db') := insertUser db new_user
    match data with
    | [] => (Except.error ⟨500, "Failed to create user"⟩, db')
    | created :: _ =>
      (Except.ok ⟨created.id, created.email, created.username, created.created_at⟩, db')

/-- Handler of `POST /auth/token`: fetch the rows whose email equals the form's
`username` field (401 when none); verify the password against the stored hash
with `verify_password` (abstracted as `verifyFn`, from the missing
`app/api/auth.py`); on success issue a token for the user's id with
`create_access_token` (abstracted as `issueFn`). -/
def login_for_access_token (verifyFn : String → String → Bool)
    (issueFn : String → String) (db : DB) (username password : String) :
    Except HTTPError Token :=
  match db.users.filter (fun u => u.email == username) with
  | [] => Except.error ⟨401, "Incorrect email or password"⟩
  | user :: _ =>
    if !(verifyFn password user.password) then
      Except.error ⟨401, "Incorrect email or password"⟩
    else
      Except.ok ⟨issueFn user.id, "bearer"⟩

/-- Handler of `POST /auth/login`: builds an `OAuth2PasswordRequestForm` with
`username := user_data.email` and the same password and delegates to
`login_for_access_token`. -/
def login (verifyFn : String → String → Bool) (issueFn : String → String)
    (db : DB) (user_data : UserLogin) : Except HTTPError Token :=
  login_for_access_token verifyFn issueFn db user_data.email user_data.password

/-- Modelled from the spec: the Token Authority (`create_access_token` and the
verification inside `get_current_user`) lives in `app/api/auth.py`, which is
not among the provided sources. Per the spec, a token carries the subject id,
the issued-at time and the expires-at time, and a signature produced with the
process-wide signing secret over exactly that payload. The signature is
modelled symbolically as the tuple of the secret and the signed payload, so
that a signature determines the secret that produced it (ideal MAC). -/
structure AccessToken where
  sub : String
  iat : Nat
  exp : Nat
  sig : String × String × Nat × Nat
deriving Repr, DecidableEq

/-- Modelled from the spec: the signature over (subject, issued-at,
expires-at) under a signing secret, symbolically the tagged payload. -/
def signPayload (secret sub : String) (iat exp : Nat) : String × String × Nat × Nat :=
  (secret, sub, iat, exp)

/-- Modelled from the spec: `issue(subjectId, ttl)` creates a token with
subject = the identity's id, issued-at = now, expires-at = now + ttl, signed
with the process-wide secret. -/
def issue (secret : String) (subjectId : String) (now ttl : Nat) : AccessToken :=
  { sub := subjectId, iat := now, exp := now + ttl
    sig := signPayload secret subjectId now (now + ttl) }

/-- Modelled from the spec: `verify(token)` is a pure function of the token,
the current time and the server secret; it recomputes the signature under the
currently configured secret and checks expiry, yielding the subject id when
both pass and `none` (Unauthenticated) otherwise, without distinguishing the
failure causes. -/
def verifyToken (secret : String) (now : Nat) (t : AccessToken) : Option String :=
  if t.sig = signPayload secret t.sub t.iat t.exp ∧ now < t.exp then some t.sub else none

/-- Modelled from the spec: a password digest of the Credential Manager
(`get_password_hash` / `verify_password` in the missing `app/api/auth.py`)
embeds the per-call salt together with the one-way transform of salt and
plaintext; the transform is modelled symbolically as the pair of the two. -/
structure Digest where
  salt : String
  body : String × String
deriving Repr, DecidableEq

/-- Modelled from the spec: `hash(plaintext)` draws a fresh salt (passed here
as an argument) and fails only on empty or oversized input; the spec fixes no
size bound, so the bound is a parameter. -/
def hashPassword (maxLen : Nat) (salt p : String) : Option Digest :=
  if p.length = 0 ∨ maxLen < p.length then none else some ⟨salt, (salt, p)⟩

/-- Modelled from the spec: `verify(plaintext, digest)` recomputes the
transform using the salt embedded in the digest and compares. -/
def verifyPassword (p : String) (d : Digest) : Bool :=
  decide (d.body = (d.salt, p))

/-- Example document owned by user `"A"`, used as the concrete state of the
counterexamples and witnesses. -/
def exDoc : Document :=
  { id := "d1", user_id := "A", title := "Position Paper", type := "position_paper"
    committee := "UNSC", country := "France", topic := "Cybersecurity"
    content := some "body", format_status := some "not_checked" }

/-- Example users-table row for user `"A"`. -/
def exUser : UserRow :=
  { id := "A", email := "a@x.com", username := "alice", password := "h1", created_at := "t0" }

/-- Example database: one user and one document owned by that user. -/
def exDB : DB :=
  { users := [exUser], documents := [exDoc] }

/-- Update body with every field left at its `None` default. -/
def emptyUpdate : DocumentUpdate :=
  { title := none, type := none, committee := none, country := none
    topic := none, content := none, format_status := none }

/-- Update body setting only the title, used by the C10 witness. -/
def exUpdate : DocumentUpdate :=
  { title := some "New Title", type := none, committee := none, country := none
    topic := none, content := none, format_status := none }

/-- Filtering commutes with a map that preserves the predicate. -/
theorem filter_map_pres {α : Type} (p : α → Bool) (g : α → α)
    (hg : ∀ x, p (g x) = p x) (l : List α) :
    (l.map g).filter p = (l.filter p).map g := by
  induction l with
  | nil => rfl
  | cons a l ih =>
    simp only [List.map_cons, List.filter_cons, hg a]
    cases h : p a <;> simp [h, ih]

/-- The head of a non-empty filter satisfies the predicate. -/
theorem head_filter_pred {α : Type} (p : α → Bool) (l : List α) (d : α) (ds : List α)
    (hf : l.filter p = d :: ds) : p d = true :=
  List.of_mem_filter (hf ▸ List.mem_cons_self d ds)

/-- The head of a non-empty filter is a member of the list. -/
theorem head_filter_mem {α : Type} (p : α → Bool) (l : List α) (d : α) (ds : List α)
    (hf : l.filter p = d :: ds) : d ∈ l :=
  List.mem_of_mem_filter (hf ▸ List.mem_cons_self d ds)

/-- C4: a token issued under one signing secret and verified under a different
one yields Unauthenticated, for every subject id, positive ttl, issuance time
and verification time. -/
theorem C4_cross_secret_token_rejected (s k1 k2 : String) (ttl now now2 : Nat)
    (_httl : 0 < ttl) (hk : k1 ≠ k2) :
    verifyToken k2 now2 (issue k1 s now ttl) = none := by
  simp [verifyToken, issue, signPayload, hk]

/-- C4 witness: concrete secrets, subject and times. -/
theorem C4_cross_secret_token_rejected_witness :
    0 < 5 ∧ ("k1" : String) ≠ "k2" ∧ verifyToken "k2" 3 (issue "k1" "A" 0 5) = none :=
  ⟨by decide, by decide, C4_cross_secret_token_rejected "A" "k1" "k2" 5 0 3 (by decide) (by decide)⟩

/-- C7: whenever the Credential Manager accepts a plaintext (the hash call
succeeds), verifying that plaintext against the digest it produced succeeds:
verification recovers the salt embedded in the digest and recomputes the
transform. -/
theorem C7_verify_hash_roundtrip (maxLen : Nat) (salt p : String) (d : Digest)
    (h : hashPassword maxLen salt p = some d) :
    verifyPassword p d = true := by
  unfold hashPassword at h
  split at h
  · exact absurd h (by simp)
  · injection h with h
    subst h
    simp [verifyPassword]

/-- C7 witness: a concrete salt and password. -/
theorem C7_verify_hash_roundtrip_witness :
    hashPassword 72 "s0" "hunter2" = some ⟨"s0", ("s0", "hunter2")⟩ ∧
      verifyPassword "hunter2" ⟨"s0", ("s0", "hunter2")⟩ = true :=
  ⟨by decide, C7_verify_hash_roundtrip 72 "s0" "hunter2" _ (by decide)⟩

/-- C6: the `/auth/login` handler is behaviourally equal to the `/auth/token`
handler called with `username := email` and the same password, for every
database state, password verifier and token issuer. -/
theorem C6_login_equals_token_endpoint (verifyFn : String → String → Bool)
    (issueFn : String → String) (db : DB) (email password : String) :
    login verifyFn issueFn db ⟨email, password⟩ =
      login_for_access_token verifyFn issueFn db email password := rfl

/-- C5: a signup whose email already belongs to a stored user fails with 400
"Email already registered" and leaves the database state unchanged. -/
theorem C5_signup_duplicate_email_conflict (hashFn : String → String) (db : DB)
    (user : UserCreate) (freshId createdAt : String) (u : UserRow)
    (hu : u ∈ db.users) (he : u.email = user.email) :
    create_user hashFn db user freshId createdAt =
      (Except.error ⟨400, "Email already registered"⟩, db) := by
  have hne : db.users.filter (fun x => x.email == user.email) ≠ [] := by
    intro hnil
    exact List.filter_eq_nil_iff.mp hnil u hu (by simp [he])
  cases hfe : db.users.filter (fun x => x.email == user.email) with
  | nil => exact absurd hfe hne
  | cons a as => simp [create_user, hfe]

/-- C5 witness: signing up a second time with the already-stored email. -/
theorem C5_signup_duplicate_email_conflict_witness :
    exUser ∈ exDB.users ∧ exUser.email = "a@x.com" ∧
      create_user (fun p => p) exDB ⟨"a@x.com", "alice2", "pw"⟩ "B" "t1" =
        (Except.error ⟨400, "Email already registered"⟩, exDB) :=
  ⟨by decide, rfl,
    C5_signup_duplicate_email_conflict (fun p => p) exDB ⟨"a@x.com", "alice2", "pw"⟩
      "B" "t1" exUser (by decide) rfl⟩

/-- C1 counterexample: the format-check endpoint also writes to the document
record (it stores the new `format_status`), yet performs no ownership
comparison: user "B" runs it on document "d1" owned by "A"; the request
succeeds and the stored record changes, refuting the claim for this mutating
operation. -/
theorem C1_counterexample :
    exDoc.user_id ≠ "B" ∧
    (check_document_format exDB "B" "d1" false).1 =
      Except.ok ⟨"d1", "issues", some formatIssues⟩ ∧
    (check_document_format exDB "B" "d1" false).2 ≠ exDB :=
  ⟨by decide, rfl, by decide⟩

/-- C1 amended: the update and delete handlers compare the authenticated
user's id against the stored document's `user_id` and reject with 403 on
mismatch, leaving the state unchanged; the format-check endpoint is the
mutating operation that performs no such check. -/
theorem C1_update_delete_check_ownership (db : DB) (uid did : String)
    (upd : DocumentUpdate) (d : Document) (ds : List Document)
    (hf : db.documents.filter (fun x => x.id == did) = d :: ds)
    (hown : d.user_id ≠ uid) :
    update_document db uid did upd =
      (Except.error ⟨403, "Not authorized to update this document"⟩, db) ∧
    delete_document db uid did =
      (Except.error ⟨403, "Not authorized to delete this document"⟩, db) :=
  ⟨by simp [update_document, hf, hown], by simp [delete_document, hf, hown]⟩

/-- C1 witness: user "B" attempts update and delete on "A"'s document. -/
theorem C1_update_delete_check_ownership_witness :
    update_document exDB "B" "d1" emptyUpdate =
      (Except.error ⟨403, "Not authorized to update this document"⟩, exDB) ∧
    delete_document exDB "B" "d1" =
      (Except.error ⟨403, "Not authorized to delete this document"⟩, exDB) :=
  C1_update_delete_check_ownership exDB "B" "d1" emptyUpdate exDoc [] (by decide) (by decide)

/-- C2 counterexample: user "B" lists documents with no filters and fetches
"d1" by id; both requests return the document owned by "A", so reads are not
scoped to the owning user. -/
theorem C2_counterexample :
    get_documents exDB "B" none none none = [exDoc] ∧
    exDoc.user_id ≠ "B" ∧
    get_document exDB "B" "d1" = Except.ok exDoc :=
  ⟨rfl, by decide, rfl⟩

/-- C2 amended: the read endpoints are not scoped to the owner: with no
filters the list endpoint returns every document in the table regardless of
owner, and the get-by-id endpoint returns the first stored document with the
requested id regardless of owner. -/
theorem C2_reads_not_scoped (db : DB) (uid : String) :
    get_documents db uid none none none = db.documents ∧
    (∀ did d ds, db.documents.filter (fun x => x.id == did) = d :: ds →
      get_document db uid did = Except.ok d) := by
  refine ⟨rfl, fun did d ds hf => ?_⟩
  simp [get_document, hf]

/-- C2 witness: the concrete database, read by the non-owner "B". -/
theorem C2_reads_not_scoped_witness :
    get_documents exDB "B" none none none = exDB.documents ∧
    get_document exDB "B" "d1" = Except.ok exDoc :=
  ⟨(C2_reads_not_scoped exDB "B").1,
   (C2_reads_not_scoped exDB "B").2 "d1" exDoc [] (by decide)⟩

/-- C3: for update and delete by an authenticated user, a missing document id
yields 404 with the state unchanged; an existing document whose owner differs
from the requester yields 403 with the state unchanged; and the 403 outcome is
distinct from the 404 outcome. -/
theorem C3_put_delete_notfound_forbidden (db : DB) (uid did : String)
    (upd : DocumentUpdate) :
    ((∀ d ∈ db.documents, d.id ≠ did) →
      update_document db uid did upd = (Except.error ⟨404, "Document not found"⟩, db) ∧
      delete_document db uid did = (Except.error ⟨404, "Document not found"⟩, db)) ∧
    ((∃ d ∈ db.documents, d.id = did) →
      (∀ d ∈ db.documents, d.id = did → d.user_id ≠ uid) →
      update_document db uid did upd =
        (Except.error ⟨403, "Not authorized to update this document"⟩, db) ∧
      delete_document db uid did =
        (Except.error ⟨403, "Not authorized to delete this document"⟩, db)) ∧
    (HTTPError.mk 403 "Not authorized to update this document" ≠
      HTTPError.mk 404 "Document not found") := by
  refine ⟨fun habs => ?_, fun hex hall => ?_, by decide⟩
  · have hnil : db.documents.filter (fun x => x.id == did) = [] := by
      rw [List.filter_eq_nil_iff]
      intro a ha
      simp [habs a ha]
    exact ⟨by simp [update_document, hnil], by simp [delete_document, hnil]⟩
  · obtain ⟨d0, hd0, hid0⟩ := hex
    have hne : db.documents.filter (fun x => x.id == did) ≠ [] := by
      intro hnil
      exact List.filter_eq_nil_iff.mp hnil d0 hd0 (by simp [hid0])
    cases hfe : db.documents.filter (fun x => x.id == did) with
    | nil => exact absurd hfe hne
    | cons a as =>
      have ha : a.id = did := by
        simpa using head_filter_pred (fun x => x.id == did) db.documents a as hfe
      have hown : a.user_id ≠ uid :=
        hall a (head_filter_mem (fun x => x.id == did) db.documents a as hfe) ha
      exact ⟨by simp [update_document, hfe, hown], by simp [delete_document, hfe, hown]⟩

/-- C3 witness: a missing id gives 404, a non-owner request on "d1" gives 403,
each with the state unchanged. -/
theorem C3_put_delete_notfound_forbidden_witness :
    (update_document exDB "B" "nope" emptyUpdate =
        (Except.error ⟨404, "Document not found"⟩, exDB) ∧
      delete_document exDB "B" "nope" = (Except.error ⟨404, "Document not found"⟩, exDB)) ∧
    (update_document exDB "B" "d1" emptyUpdate =
        (Except.error ⟨403, "Not authorized to update this document"⟩, exDB) ∧
      delete_document exDB "B" "d1" =
        (Except.error ⟨403, "Not authorized to delete this document"⟩, exDB)) :=
  ⟨(C3_put_delete_notfound_forbidden exDB "B" "nope" emptyUpdate).1 (by decide),
   (C3_put_delete_notfound_forbidden exDB "B" "d1" emptyUpdate).2.1
     ⟨exDoc, by decide, rfl⟩ (by decide)⟩

/-- C8: a format check on an existing document id answers 200 with the
requested id echoed back, a status that is either "valid" or "issues", an
issue list present exactly in the "issues" case, and every stored row with
that id updated to the returned status (the coin flip is the `is_valid`
parameter). -/
theorem C8_format_check_contract (db : DB) (uid did : String) (is_valid : Bool)
    (d : Document) (ds : List Document)
    (hf : db.documents.filter (fun x => x.id == did) = d :: ds) :
    ∃ resp db', check_document_format db uid did is_valid = (Except.ok resp, db') ∧
      resp.document_id = did ∧
      (resp.format_status = "valid" ∨ resp.format_status = "issues") ∧
      (resp.issues.isSome ↔ resp.format_status = "issues") ∧
      (∀ x ∈ db'.documents, x.id = did → x.format_status = some resp.format_status) ∧
      (∃ x ∈ db'.documents, x.id = did) := by
  have hd : d ∈ db.documents := head_filter_mem _ _ _ _ hf
  have hdp : (d.id == did) = true := head_filter_pred (fun x => x.id == did) db.documents d ds hf
  refine ⟨⟨did, if is_valid then "valid" else "issues",
      if is_valid then none else some formatIssues⟩,
    { db with documents := db.documents.map (fun x => if x.id == did then
        { x with format_status := some (if is_valid then "valid" else "issues") } else x) },
    ?_, rfl, ?_, ?_, ?_, ?_⟩
  · simp [check_document_format, hf]
  · cases is_valid <;> simp
  · cases is_valid <;> simp
  · intro x hx hxid
    obtain ⟨y, hy, rfl⟩ := List.mem_map.mp hx
    by_cases h : y.id == did
    · rw [if_pos h]
    · rw [if_neg h] at hxid ⊢
      exact absurd (by simp [hxid]) h
  · refine ⟨if d.id == did then
        { d with format_status := some (if is_valid then "valid" else "issues") } else d,
      List.mem_map_of_mem _ hd, ?_⟩
    rw [if_pos hdp]
    simpa using hdp

/-- C8 witness: the flagged branch of the coin flip on the concrete database. -/
theorem C8_format_check_contract_witness :
    ∃ resp db', check_document_format exDB "A" "d1" false = (Except.ok resp, db') ∧
      resp.document_id = "d1" ∧
      (resp.format_status = "valid" ∨ resp.format_status = "issues") ∧
      (resp.issues.isSome ↔ resp.format_status = "issues") ∧
      (∀ x ∈ db'.documents, x.id = "d1" → x.format_status = some resp.format_status) ∧
      (∃ x ∈ db'.documents, x.id = "d1") :=
  C8_format_check_contract exDB "A" "d1" false exDoc [] (by decide)

/-- C9: a successful signup responds with exactly the four fields id, email,
username and created_at of the created row, and the response is independent of
the submitted password, so neither the plaintext nor the stored hash appears
in it. -/
theorem C9_signup_response_fields (hashFn : String → String) (db : DB)
    (user : UserCreate) (freshId createdAt : String)
    (h : ∀ u ∈ db.users, u.email ≠ user.email) :
    (create_user hashFn db user freshId createdAt).1 =
      Except.ok ⟨freshId, user.email, user.username, createdAt⟩ ∧
    (∀ p, (create_user hashFn db { user with password := p } freshId createdAt).1 =
      Except.ok ⟨freshId, user.email, user.username, createdAt⟩) := by
  have hnil : db.users.filter (fun u => u.email == user.email) = [] := by
    rw [List.filter_eq_nil_iff]
    intro a ha
    simp [h a ha]
  exact ⟨by simp [create_user, insertUser, hnil],
    fun p => by simp [create_user, insertUser, hnil]⟩

/-- C9 witness: a fresh signup on the empty database. -/
theorem C9_signup_response_fields_witness :
    (create_user (fun p => p ++ "#h") ⟨[], []⟩ ⟨"b@x.com", "bob", "pw"⟩ "B" "t1").1 =
      Except.ok ⟨"B", "b@x.com", "bob", "t1"⟩ :=
  (C9_signup_response_fields (fun p => p ++ "#h") ⟨[], []⟩ ⟨"b@x.com", "bob", "pw"⟩
    "B" "t1" (by decide)).1

/-- C10: an owner update applies exactly the non-null request fields: every
null field keeps the stored value, every non-null field overwrites it, and a
nullable stored field that was non-null can never become null. -/
theorem C10_update_applies_only_nonnull (db : DB) (uid did : String)
    (upd : DocumentUpdate) (d : Document) (ds : List Document)
    (hf : db.documents.filter (fun x => x.id == did) = d :: ds)
    (hown : d.user_id = uid) :
    ∃ d' db', update_document db uid did upd = (Except.ok d', db') ∧
      d' ∈ db'.documents ∧
      (upd.title = none → d'.title = d.title) ∧ (∀ v, upd.title = some v → d'.title = v) ∧
      (upd.type = none → d'.type = d.type) ∧ (∀ v, upd.type = some v → d'.type = v) ∧
      (upd.committee = none → d'.committee = d.committee) ∧
      (∀ v, upd.committee = some v → d'.committee = v) ∧
      (upd.country = none → d'.country = d.country) ∧
      (∀ v, upd.country = some v → d'.country = v) ∧
      (upd.topic = none → d'.topic = d.topic) ∧ (∀ v, upd.topic = some v → d'.topic = v) ∧
      (upd.content = none → d'.content = d.content) ∧
      (∀ v, upd.content = some v → d'.content = some v) ∧
      (upd.format_status = none → d'.format_status = d.format_status) ∧
      (∀ v, upd.format_status = some v → d'.format_status = some v) ∧
      (d.content.isSome → d'.content.isSome) ∧
      (d.format_status.isSome → d'.format_status.isSome) := by
  have hd : d ∈ db.documents := head_filter_mem _ _ _ _ hf
  have hdp : (d.id == did) = true := head_filter_pred (fun x => x.id == did) db.documents d ds hf
  have hg : ∀ x : Document,
      ((if x.id == did then applyUpdate upd x else x).id == did) = (x.id == did) := by
    intro x
    by_cases h : x.id == did
    · rw [if_pos h]
      rfl
    · rw [if_neg h]
  have hmapfilter :
      (db.documents.map (fun x => if x.id == did then applyUpdate upd x else x)).filter
        (fun x => x.id == did) =
      applyUpdate upd d :: ds.map (fun x => if x.id == did then applyUpdate upd x else x) := by
    rw [filter_map_pres _ _ hg, hf, List.map_cons, if_pos hdp]
  have hrun : update_document db uid did upd =
      (Except.ok (applyUpdate upd d),
       { db with documents :=
          db.documents.map (fun x => if x.id == did then applyUpdate upd x else x) }) := by
    simp only [update_document, hf]
    rw [if_neg (fun hne => hne hown)]
    simp only [hmapfilter]
  refine ⟨applyUpdate upd d, _, hrun, ?_, ?_, ?_, ?_, ?_, ?_, ?_, ?_, ?_, ?_, ?_, ?_, ?_,
    ?_, ?_, ?_, ?_⟩
  · have hmem := List.mem_map_of_mem (fun x => if x.id == did then applyUpdate upd x else x) hd
    simpa [hdp] using hmem
  · intro h0
    simp [applyUpdate, h0]
  · intro v hv
    simp [applyUpdate, hv]
  · intro h0
    simp [applyUpdate, h0]
  · intro v hv
    simp [applyUpdate, hv]
  · intro h0
    simp [applyUpdate, h0]
  · intro v hv
    simp [applyUpdate, hv]
  · intro h0
    simp [applyUpdate, h0]
  · intro v hv
    simp [applyUpdate, hv]
  · intro h0
    simp [applyUpdate, h0]
  · intro v hv
    simp [applyUpdate, hv]
  · intro h0
    simp [applyUpdate, h0]
  · intro v hv
    simp [applyUpdate, hv]
  · intro h0
    simp [applyUpdate, h0]
  · intro v hv
    simp [applyUpdate, hv]
  · intro hs
    cases hc : upd.content with
    | none => simpa [applyUpdate, hc] using hs
    | some v => simp [applyUpdate, hc]
  · intro hs
    cases hc : upd.format_status with
    | none => simpa [applyUpdate, hc] using hs
    | some v => simp [applyUpdate, hc]

/-- C10 witness: the owner updates only the title of the concrete document. -/
theorem C10_update_applies_only_nonnull_witness :
    ∃ d' db', update_document exDB "A" "d1" exUpdate = (Except.ok d', db') ∧
      d' ∈ db'.documents ∧
      (exUpdate.title = none → d'.title = exDoc.title) ∧
      (∀ v, exUpdate.title = some v → d'.title = v) ∧
      (exUpdate.type = none → d'.type = exDoc.type) ∧
      (∀ v, exUpdate.type = some v → d'.type = v) ∧
      (exUpdate.committee = none → d'.committee = exDoc.committee) ∧
      (∀ v, exUpdate.committee = some v → d'.committee = v) ∧
      (exUpdate.country = none → d'.country = exDoc.country) ∧
      (∀ v, exUpdate.country = some v → d'.country = v) ∧
      (exUpdate.topic = none → d'.topic = exDoc.topic) ∧
      (∀ v, exUpdate.topic = some v → d'.topic = v) ∧
      (exUpdate.content = none → d'.content = exDoc.content) ∧
      (∀ v, exUpdate.content = some v → d'.content = some v) ∧
      (exUpdate.format_status = none → d'.format_status = exDoc.format_status) ∧
      (∀ v, exUpdate.format_status = some v → d'.format_status = some v) ∧
      (exDoc.content.isSome → d'.content.isSome) ∧
      (exDoc.format_status.isSome → d'.format_status.isSome) :=
  C10_update_applies_only_nonnull exDB "A" "d1" exUpdate exDoc [] (by decide) rfl

end MunBackend
